import Mathlib

/-!
Verification of the PRIME CVD risk calculator engine (`prime_cvd_app.py`).

The engine consists of four pure calculation functions plus a static therapy
catalog.  We embed them shallowly:

* the LDL / recommendation functions involve only field arithmetic, `min`,
  string comparison and list membership, so they are embedded generically over
  a `LinearOrderedField` (instantiated at `ℚ` where we want `decide`, and at
  `ℝ` inside the baseline-risk pipeline);
* the baseline risk estimator uses `math.log`, `math.exp` and a real power,
  so it is embedded over `ℝ`;
* Python's `round(x, 1)` (banker's rounding to one decimal) is embedded as
  exact round-half-to-even on reals;
* `try/except` blocks are embedded as `Option` / `Except` values: the only
  operation in the source that can raise on in-range inputs is
  `math.log(crp + 1)`, which raises a `ValueError` exactly when `crp + 1 ≤ 0`.
-/

/-- The `LDL_THERAPIES` dict of the source (lines 14-19).  Each inner dict
`{"reduction": r}` holds the single key `"reduction"`, so the catalog is
flattened to an association list from therapy identifier to its reduction. -/
def LDL_THERAPIES {α : Type} [LinearOrderedField α] : List (String × α) :=
  [("Atorvastatin 20 mg", 40),
   ("Atorvastatin 80 mg", 50),
   ("Rosuvastatin 10 mg", 45),
   ("Rosuvastatin 20 mg", 55)]

/-- `calculate_ldl_reduction` (source lines 50-62).  The chained
`LDL_THERAPIES.get(discharge_statin, \x7b\x7d).get("reduction", 0)` becomes a
catalog lookup defaulting to `0`; the Python list-membership tests on the
multiselect value become `List.contains`; `statin_reduction *= 0.5` and the
`total_reduction += k` updates become rebindings. -/
def calculate_ldl_reduction {α : Type} [LinearOrderedField α]
    (current_ldl : α) (pre_statin discharge_statin : String)
    (discharge_add_ons : List String) : α × α :=
  let statin_reduction : α := (List.lookup discharge_statin LDL_THERAPIES).getD 0
  let statin_reduction := if pre_statin ≠ "None" then statin_reduction * 0.5 else statin_reduction
  let total_reduction := statin_reduction
  let total_reduction := if discharge_add_ons.contains "Ezetimibe" then total_reduction + 20 else total_reduction
  let total_reduction := if discharge_add_ons.contains "PCSK9 inhibitor" then total_reduction + 60 else total_reduction
  let total_reduction := if discharge_add_ons.contains "Inclisiran" then total_reduction + 50 else total_reduction
  let projected_ldl := current_ldl * (1 - total_reduction / 100)
  (projected_ldl, total_reduction)

/-- The body of the `try` block of `calculate_ldl_effect` (source lines 42-45),
as an `Except` computation.  Every operation in the block (subtraction, `min`,
multiplication, division by the literal `100`) is total, so the block is the
single `Except.ok` of the arithmetic result: no step can raise. -/
def calculate_ldl_effect_checked {α : Type} [LinearOrderedField α]
    (baseline_risk baseline_ldl final_ldl : α) : Except String α :=
  let ldl_reduction := baseline_ldl - final_ldl
  let rrr := min (22 * ldl_reduction) 60
  Except.ok (baseline_risk * (1 - rrr / 100))

/-- `calculate_ldl_effect` (source lines 41-48): run the `try` body; the
`except` arm returns the unmodified `baseline_risk`. -/
def calculate_ldl_effect {α : Type} [LinearOrderedField α]
    (baseline_risk baseline_ldl final_ldl : α) : α :=
  match calculate_ldl_effect_checked baseline_risk baseline_ldl final_ldl with
  | Except.ok v => v
  | Except.error _ => baseline_risk

/-- `generate_recommendations` (source lines 64-70): `final_risk >= 30` first,
then `final_risk >= 20`, else the moderate tier. -/
def generate_recommendations {α : Type} [LinearOrderedField α] (final_risk : α) : String :=
  if 30 ≤ final_risk then
    "🔴 Very High Risk: High-intensity statin, PCSK9 inhibitor, SBP <130 mmHg."
  else if 20 ≤ final_risk then
    "🟠 High Risk: Moderate-intensity statin, SBP <130 mmHg."
  else
    "🟢 Moderate Risk: Lifestyle adherence, annual reassessment."

/-- The total reduction percentage as the spec describes it (§4.3 steps 1-3):
the catalog reduction of the prescribed therapy (0 for unknown or "None"),
halved whenever the current therapy identifier differs from "None", plus 20
for Ezetimibe, 60 for a PCSK9 inhibitor and 50 for Inclisiran in the add-on
set.  Written from the spec's words, to be compared with
`calculate_ldl_reduction`. -/
def specTotalReduction {α : Type} [LinearOrderedField α]
    (currentTherapyId prescribedTherapyId : String) (addOns : List String) : α :=
  (if currentTherapyId ≠ "None" then
      (List.lookup prescribedTherapyId LDL_THERAPIES).getD 0 * 0.5
    else
      (List.lookup prescribedTherapyId LDL_THERAPIES).getD 0)
  + (if addOns.contains "Ezetimibe" then 20 else 0)
  + (if addOns.contains "PCSK9 inhibitor" then 60 else 0)
  + (if addOns.contains "Inclisiran" then 50 else 0)

/-- Helper: the projected LDL returned by `calculate_ldl_reduction` is the
current LDL scaled by one minus the returned total reduction over 100. -/
lemma calculate_ldl_reduction_fst {α : Type} [LinearOrderedField α]
    (current_ldl : α) (pre_statin discharge_statin : String)
    (discharge_add_ons : List String) :
    (calculate_ldl_reduction current_ldl pre_statin discharge_statin discharge_add_ons).1 =
      current_ldl *
        (1 - (calculate_ldl_reduction current_ldl pre_statin discharge_statin
                discharge_add_ons).2 / 100) := by
  simp only [calculate_ldl_reduction]

/-- C3: `calculate_ldl_reduction` returns the pair
`(currentLdl * (1 - t/100), t)` with `t` the catalog reduction of the
prescribed therapy (0 for unknown or "None"), halved when the current therapy
differs from "None", plus 20 / 60 / 50 for the Ezetimibe / PCSK9 inhibitor /
Inclisiran add-ons; at `currentLdl = 3.5`, a non-"None" current therapy,
prescribed "Rosuvastatin 20 mg" and no add-ons it returns total reduction
27.5 and projected LDL 2.5375. -/
theorem C3_projectLdl_formula_and_example :
    (∀ (c : ℚ) (pre dis : String) (addOns : List String),
        calculate_ldl_reduction c pre dis addOns =
          (c * (1 - specTotalReduction pre dis addOns / 100),
            specTotalReduction pre dis addOns)) ∧
    calculate_ldl_reduction (3.5 : ℚ) "Atorvastatin 20 mg" "Rosuvastatin 20 mg" [] =
      (2.5375, 27.5) := by
  constructor
  · intro c pre dis addOns
    simp only [calculate_ldl_reduction, specTotalReduction]
    split_ifs <;> rw [Prod.mk.injEq] <;> exact ⟨by ring, by ring⟩
  · simp [calculate_ldl_reduction, LDL_THERAPIES, List.lookup]
    norm_num

/-- C1 counterexample: with a positive current LDL (3.5), no pre-existing
therapy, prescribed "Rosuvastatin 20 mg" and all three add-ons selected, the
computed total reduction is 185 percent (not capped below 100) and the
returned projected LDL is -2.975, which is negative. -/
theorem C1_counterexample_projected_ldl_negative :
    calculate_ldl_reduction (3.5 : ℚ) "None" "Rosuvastatin 20 mg"
        ["Ezetimibe", "PCSK9 inhibitor", "Inclisiran"] = (-2.975, 185) ∧
      (0 : ℚ) < 3.5 ∧ (-2.975 : ℚ) < 0 ∧ (100 : ℚ) < 185 := by
  refine ⟨?_, by norm_num, by norm_num, by norm_num⟩
  simp [calculate_ldl_reduction, LDL_THERAPIES, List.lookup]
  norm_num

/-- C1 (amended): for a nonnegative current LDL, whenever the computed total
reduction does not exceed 100 percent — in particular for every call without
add-ons — the projected LDL returned by `calculate_ldl_reduction` is
nonnegative.  (The unrestricted claim is false: stacked add-ons can push the
total reduction above 100 percent, giving a negative projected LDL.) -/
theorem C1_projected_ldl_nonneg_of_reduction_le_100
    (c : ℚ) (pre dis : String) (addOns : List String)
    (hc : 0 ≤ c)
    (h100 : (calculate_ldl_reduction c pre dis addOns).2 ≤ 100) :
    0 ≤ (calculate_ldl_reduction c pre dis addOns).1 := by
  rw [calculate_ldl_reduction_fst]
  have h1 : (0 : ℚ) ≤ 1 - (calculate_ldl_reduction c pre dis addOns).2 / 100 := by
    linarith
  exact mul_nonneg hc h1

/-- C1 witness: a concrete run of the amended statement. -/
theorem C1_projected_ldl_nonneg_witness :
    (0 : ℚ) ≤ 3.5 ∧
      (calculate_ldl_reduction (3.5 : ℚ) "None" "Rosuvastatin 10 mg" []).2 ≤ 100 ∧
      0 ≤ (calculate_ldl_reduction (3.5 : ℚ) "None" "Rosuvastatin 10 mg" []).1 := by
  have h100 : (calculate_ldl_reduction (3.5 : ℚ) "None" "Rosuvastatin 10 mg" []).2 ≤ 100 := by
    simp [calculate_ldl_reduction, LDL_THERAPIES, List.lookup]
    norm_num
  exact ⟨by norm_num, h100,
    C1_projected_ldl_nonneg_of_reduction_le_100 3.5 "None" "Rosuvastatin 10 mg" []
      (by norm_num) h100⟩

/-- C4: `calculate_ldl_effect` returns
`baselineRisk * (1 - min (22 * (baselineLdl - projectedLdl)) 60 / 100)`, and
for nonnegative `baselineRisk` the result is at least `0.4 * baselineRisk`
(the applied relative risk reduction is capped at 60 percent). -/
theorem C4_ldl_effect_formula_and_cap (br bl fl : ℚ) :
    calculate_ldl_effect br bl fl = br * (1 - min (22 * (bl - fl)) 60 / 100) ∧
      (0 ≤ br → 0.4 * br ≤ calculate_ldl_effect br bl fl) := by
  have hfo : calculate_ldl_effect br bl fl = br * (1 - min (22 * (bl - fl)) 60 / 100) := by
    simp only [calculate_ldl_effect, calculate_ldl_effect_checked]
  refine ⟨hfo, fun hbr => ?_⟩
  rw [hfo]
  have hle : min (22 * (bl - fl)) 60 ≤ 60 := min_le_right _ _
  nlinarith

/-- C4 witness: a concrete run with the cap active
(22·(3.5-0.5) = 66 is capped to 60). -/
theorem C4_ldl_effect_cap_witness :
    (0 : ℚ) ≤ 10 ∧ (0.4 : ℚ) * 10 ≤ calculate_ldl_effect (10 : ℚ) 3.5 0.5 :=
  ⟨by norm_num, (C4_ldl_effect_formula_and_cap 10 3.5 0.5).2 (by norm_num)⟩

/-- C7: applying `calculate_ldl_effect` with equal baseline and projected LDL
returns exactly the baseline risk (in the exact arithmetic of the model the
multiplier is exactly 1). -/
theorem C7_ldl_effect_identity_on_no_change (r ldl : ℚ) :
    calculate_ldl_effect r ldl ldl = r := by
  simp only [calculate_ldl_effect, calculate_ldl_effect_checked, sub_self, mul_zero]
  norm_num

/-- C9: the `try` body of `calculate_ldl_effect` always succeeds — in the
exact-field model every operation in it is total — so the function never
propagates an error: for every input the checked computation is `Except.ok`
of the value that `calculate_ldl_effect` hands to its caller (and the
`except` arm, which would return the unmodified `baseline_risk`, is never
taken). -/
theorem C9_ldl_effect_never_errors (br bl fl : ℚ) :
    calculate_ldl_effect_checked br bl fl = Except.ok (calculate_ldl_effect br bl fl) := by
  simp only [calculate_ldl_effect, calculate_ldl_effect_checked]

/-- C5: `generate_recommendations` partitions the line into exactly three
contiguous tiers: a value maps to the "Very High Risk" string exactly when it
is at least 30, to the "High Risk" string exactly when it is at least 20 and
below 30, and to the "Moderate Risk" string exactly when it is below 20; the
boundary values 20 and 30 therefore resolve to the higher tier. -/
theorem C5_recommendation_tiers_partition (r : ℝ) :
    (generate_recommendations r =
        "🔴 Very High Risk: High-intensity statin, PCSK9 inhibitor, SBP <130 mmHg." ↔
      30 ≤ r) ∧
    (generate_recommendations r =
        "🟠 High Risk: Moderate-intensity statin, SBP <130 mmHg." ↔
      20 ≤ r ∧ r < 30) ∧
    (generate_recommendations r =
        "🟢 Moderate Risk: Lifestyle adherence, annual reassessment." ↔
      r < 20) := by
  simp only [generate_recommendations]
  split_ifs with h1 h2
  · exact ⟨iff_of_true rfl h1,
      iff_of_false (by decide) (fun hc => absurd h1 (not_le.mpr hc.2)),
      iff_of_false (by decide)
        (fun hc => absurd hc (not_lt.mpr (le_trans (by norm_num) h1)))⟩
  · exact ⟨iff_of_false (by decide) h1,
      iff_of_true rfl ⟨h2, not_le.mp h1⟩,
      iff_of_false (by decide) (fun hc => absurd hc (not_lt.mpr h2))⟩
  · exact ⟨iff_of_false (by decide) h1,
      iff_of_false (by decide) (fun hc => h2 hc.1),
      iff_of_true rfl (not_le.mp h2)⟩

/-- A Python float value as it reaches `generate_recommendations`: either NaN
or an ordinary (finite) value, here carried as an exact rational.  Python's
`>=` on floats returns `False` whenever either operand is NaN. -/
inductive PyFloat where
  | nan : PyFloat
  | val : ℚ → PyFloat

/-- Python's `>=` comparison on floats: any comparison involving NaN is
`False`; on ordinary values it is the numeric comparison. -/
def PyFloat.pyGe : PyFloat → PyFloat → Bool
  | PyFloat.nan, _ => false
  | _, PyFloat.nan => false
  | PyFloat.val a, PyFloat.val b => decide (b ≤ a)

/-- `generate_recommendations` (source lines 64-70) re-embedded over Python
float comparison semantics, so that the NaN behaviour of the two `>=` guards
is represented: `final_risk >= 30` first, then `final_risk >= 20`. -/
def generate_recommendations_pyfloat (final_risk : PyFloat) : String :=
  if final_risk.pyGe (PyFloat.val 30) then
    "🔴 Very High Risk: High-intensity statin, PCSK9 inhibitor, SBP <130 mmHg."
  else if final_risk.pyGe (PyFloat.val 20) then
    "🟠 High Risk: Moderate-intensity statin, SBP <130 mmHg."
  else
    "🟢 Moderate Risk: Lifestyle adherence, annual reassessment."

/-- C10: when the final risk is NaN, both `>=` guards of
`generate_recommendations` evaluate to false, so the function silently
returns the lowest ("Moderate Risk") tier string rather than rejecting the
non-finite value. -/
theorem C10_nan_falls_to_moderate_tier :
    PyFloat.nan.pyGe (PyFloat.val 30) = false ∧
      PyFloat.nan.pyGe (PyFloat.val 20) = false ∧
      generate_recommendations_pyfloat PyFloat.nan =
        "🟢 Moderate Risk: Lifestyle adherence, annual reassessment." :=
  ⟨rfl, rfl, rfl⟩

/-- Python's `round` to an integer (banker's rounding): round to the nearest
integer, with exact halves going to the even neighbour. -/
noncomputable def round_half_even (x : ℝ) : ℤ :=
  if Int.fract x = 1 / 2 then (if Even ⌊x⌋ then ⌊x⌋ else ⌊x⌋ + 1) else round x

/-- Half-up rounding never goes below the floor. -/
lemma floor_le_round_real (x : ℝ) : ⌊x⌋ ≤ round x := by
  rw [round_eq]
  exact Int.floor_mono (by linarith)

/-- Half-up rounding never exceeds the floor plus one. -/
lemma round_le_floor_add_one (x : ℝ) : round x ≤ ⌊x⌋ + 1 := by
  rw [round_eq]
  have h : ⌊x + 1 / 2⌋ < ⌊x⌋ + 2 := by
    rw [Int.floor_lt]
    push_cast
    linarith [Int.lt_floor_add_one x]
  omega

/-- Banker's rounding never goes below the floor. -/
lemma floor_le_round_half_even (x : ℝ) : ⌊x⌋ ≤ round_half_even x := by
  unfold round_half_even
  split_ifs
  · exact le_rfl
  · omega
  · exact floor_le_round_real x

/-- Banker's rounding never exceeds the floor plus one. -/
lemma round_half_even_le_floor_add_one (x : ℝ) : round_half_even x ≤ ⌊x⌋ + 1 := by
  unfold round_half_even
  split_ifs
  · omega
  · exact le_rfl
  · exact round_le_floor_add_one x

/-- Banker's rounding is monotone. -/
lemma round_half_even_mono {x y : ℝ} (h : x ≤ y) :
    round_half_even x ≤ round_half_even y := by
  have hf : ⌊x⌋ ≤ ⌊y⌋ := Int.floor_mono h
  rcases lt_or_eq_of_le hf with hlt | heq
  · calc round_half_even x ≤ ⌊x⌋ + 1 := round_half_even_le_floor_add_one x
      _ ≤ ⌊y⌋ := by omega
      _ ≤ round_half_even y := floor_le_round_half_even y
  · have hfr : Int.fract x ≤ Int.fract y := by
      have hx := Int.floor_add_fract x
      have hy := Int.floor_add_fract y
      have : (⌊x⌋ : ℝ) = (⌊y⌋ : ℝ) := by exact_mod_cast congrArg Int.cast heq
      linarith
    by_cases hx : Int.fract x = 1 / 2
    · by_cases hy : Int.fract y = 1 / 2
      · have hxy : x = y := by
          have h1 := Int.floor_add_fract x
          have h2 := Int.floor_add_fract y
          have h3 : (⌊x⌋ : ℝ) = (⌊y⌋ : ℝ) := by exact_mod_cast congrArg Int.cast heq
          linarith [hx, hy]
        rw [hxy]
      · have hgt : 1 / 2 < Int.fract y := lt_of_le_of_ne (hx ▸ hfr) (Ne.symm hy)
        have hry : (⌊y⌋ + 1 : ℤ) ≤ round y := by
          rw [round_eq]
          apply Int.le_floor.mpr
          push_cast
          linarith [Int.floor_add_fract y]
        unfold round_half_even
        rw [if_pos hx, if_neg hy]
        split_ifs <;> omega
    · by_cases hy : Int.fract y = 1 / 2
      · have hlt2 : Int.fract x < 1 / 2 := lt_of_le_of_ne (hy ▸ hfr) hx
        have hrx : round x ≤ ⌊x⌋ := by
          rw [round_eq]
          have hfl : ⌊x + 1 / 2⌋ < ⌊x⌋ + 1 := by
            rw [Int.floor_lt]
            push_cast
            linarith [Int.floor_add_fract x]
          omega
        unfold round_half_even
        rw [if_neg hx, if_pos hy]
        split_ifs <;> omega
      · unfold round_half_even
        rw [if_neg hx, if_neg hy, round_eq, round_eq]
        exact Int.floor_mono (by linarith)

/-- Python's `round(x, 1)`: banker's rounding to one decimal place, i.e. the
nearest multiple of one tenth with ties to even tenths. -/
noncomputable def pyRound1 (x : ℝ) : ℝ :=
  (round_half_even (x * 10) : ℝ) / 10

/-- Rounding to one decimal is monotone. -/
lemma pyRound1_mono {x y : ℝ} (h : x ≤ y) : pyRound1 x ≤ pyRound1 y := by
  unfold pyRound1
  have h10 : round_half_even (x * 10) ≤ round_half_even (y * 10) :=
    round_half_even_mono (by linarith)
  exact (div_le_div_iff_of_pos_right (by norm_num)).mpr (by exact_mod_cast h10)

/-- The linear predictor `lp` of `calculate_smart_risk` (source lines 28-34).
The locals `sex_val`, `smoking_val`, `diabetes_val` and `crp_log` are inlined:
sex is encoded 1 for "Male" and 0 otherwise, the booleans as 1/0, and
`crp_log = math.log(crp + 1)` becomes `Real.log (crp + 1)`. -/
noncomputable def smart_lp (age : ℝ) (sex : String) (sbp total_chol hdl : ℝ)
    (smoker diabetes : Bool) (egfr crp vasc_count : ℝ) : ℝ :=
  0.064 * age + 0.34 * (if sex = "Male" then 1 else 0) + 0.02 * sbp +
    0.25 * total_chol - 0.25 * hdl + 0.44 * (if smoker then 1 else 0) +
    0.51 * (if diabetes then 1 else 0) - 0.2 * (egfr / 10) +
    0.25 * Real.log (crp + 1) + 0.4 * vasc_count

/-- The value computed by the `try` body of `calculate_smart_risk` (source
lines 35-36): `risk10 = 1 - 0.900 ** math.exp(lp - 5.8)` (a real power with
positive base, `Real.rpow`), then
`max(1.0, min(99.0, round(risk10 * 100, 1)))`. -/
noncomputable def smart_risk_value (age : ℝ) (sex : String) (sbp total_chol hdl : ℝ)
    (smoker diabetes : Bool) (egfr crp vasc_count : ℝ) : ℝ :=
  max 1.0 (min 99.0 (pyRound1
    ((1 - (0.900 : ℝ) ^
        Real.exp (smart_lp age sex sbp total_chol hdl smoker diabetes egfr crp vasc_count
          - 5.8)) * 100)))

/-- `calculate_smart_risk` (source lines 26-39).  The only operation in the
`try` body that can raise on real inputs is `math.log(crp + 1)`, which raises
`ValueError` exactly when `crp + 1 ≤ 0`; in that case the `except` arm
displays an error and returns `None`, modelled as `none`.  Otherwise the
clamped rounded risk is returned. -/
noncomputable def calculate_smart_risk (age : ℝ) (sex : String) (sbp total_chol hdl : ℝ)
    (smoker diabetes : Bool) (egfr crp vasc_count : ℝ) : Option ℝ :=
  if crp + 1 ≤ 0 then none
  else some (smart_risk_value age sex sbp total_chol hdl smoker diabetes egfr crp vasc_count)

/-- The message displayed by the `except` arm of `calculate_smart_risk`
(source line 38): Python's `math.log` raises `ValueError("math domain error")`
when its argument is not positive, so the caught exception renders
`f"Error calculating risk: \x7bstr(e)\x7d"` as the fixed text below.  `none`
when the computation succeeds and nothing is displayed. -/
noncomputable def calculate_smart_risk_displayed (crp : ℝ) : Option String :=
  if crp + 1 ≤ 0 then some "Error calculating risk: math domain error" else none

/-- The main logic (source lines 127-140) from the baseline risk to the final
post-treatment risk: the treatment-effect steps run only inside
`if baseline_risk:` — and a returned baseline risk is clamped to at least 1.0,
so it is truthy exactly when `calculate_smart_risk` did not fail. -/
noncomputable def main_final_risk (age : ℝ) (sex : String) (sbp total_chol hdl : ℝ)
    (smoker diabetes : Bool) (egfr crp vasc_count ldl : ℝ)
    (pre_statin discharge_statin : String) (discharge_add_ons : List String) : Option ℝ :=
  match calculate_smart_risk age sex sbp total_chol hdl smoker diabetes egfr crp vasc_count with
  | none => none
  | some baseline_risk =>
      some (calculate_ldl_effect baseline_risk ldl
        (calculate_ldl_reduction ldl pre_statin discharge_statin discharge_add_ons).1)

/-- Monotone core of the baseline risk: a larger linear predictor gives a
larger exponential, a smaller `0.9 ^ _` power (the base is below 1), hence a
larger `risk10`, and rounding and clamping are monotone. -/
lemma smart_risk_core_mono {L₁ L₂ : ℝ} (h : L₁ ≤ L₂) :
    max 1.0 (min 99.0 (pyRound1 ((1 - (0.900 : ℝ) ^ Real.exp (L₁ - 5.8)) * 100))) ≤
      max 1.0 (min 99.0 (pyRound1 ((1 - (0.900 : ℝ) ^ Real.exp (L₂ - 5.8)) * 100))) := by
  apply max_le_max le_rfl
  apply min_le_min le_rfl
  apply pyRound1_mono
  have he : Real.exp (L₁ - 5.8) ≤ Real.exp (L₂ - 5.8) := Real.exp_le_exp.mpr (by linarith)
  have hp : (0.900 : ℝ) ^ Real.exp (L₂ - 5.8) ≤ (0.900 : ℝ) ^ Real.exp (L₁ - 5.8) :=
    Real.rpow_le_rpow_of_exponent_ge (by norm_num) (by norm_num) he
  linarith

/-- C2: for inputs in the validated ranges (age 30-100, SBP 90-220, eGFR
15-120, crp at least 0.1, vascular disease count 0-3, any sex string, any
booleans), `calculate_smart_risk` succeeds and its numeric result lies in the
closed interval [1, 99]: the returned value is `max 1.0 (min 99.0 _)`. -/
theorem C2_baseline_risk_in_range
    (age : ℝ) (sex : String) (sbp total_chol hdl : ℝ) (smoker diabetes : Bool)
    (egfr crp vasc_count : ℝ)
    (hage1 : 30 ≤ age) (hage2 : age ≤ 100) (hsbp1 : 90 ≤ sbp) (hsbp2 : sbp ≤ 220)
    (hegfr1 : 15 ≤ egfr) (hegfr2 : egfr ≤ 120) (hcrp : 0.1 ≤ crp)
    (hvasc1 : 0 ≤ vasc_count) (hvasc2 : vasc_count ≤ 3) :
    ∃ r, calculate_smart_risk age sex sbp total_chol hdl smoker diabetes egfr crp
        vasc_count = some r ∧ 1 ≤ r ∧ r ≤ 99 := by
  have hpos : (0.1 : ℝ) > 0 := by norm_num
  have hno : ¬ (crp + 1 ≤ 0) := not_le.mpr (by linarith)
  refine ⟨smart_risk_value age sex sbp total_chol hdl smoker diabetes egfr crp vasc_count,
    ?_, ?_, ?_⟩
  · simp only [calculate_smart_risk, if_neg hno]
  · unfold smart_risk_value
    exact le_trans (by norm_num : (1 : ℝ) ≤ 1.0) (le_max_left _ _)
  · unfold smart_risk_value
    exact max_le (by norm_num) (le_trans (min_le_left _ _) (by norm_num))

/-- C2 witness: the spec's golden-fixture input (age 65, Male, SBP 140, total
cholesterol 5.0, HDL 1.0, non-smoker, no diabetes, eGFR 80, crp 2.0, no
vascular disease) yields a risk in [1, 99]. -/
theorem C2_baseline_risk_in_range_witness :
    ∃ r, calculate_smart_risk 65 "Male" 140 5 1 false false 80 2 0 = some r ∧
      1 ≤ r ∧ r ≤ 99 :=
  C2_baseline_risk_in_range 65 "Male" 140 5 1 false false 80 2 0
    (by norm_num) (by norm_num) (by norm_num) (by norm_num) (by norm_num)
    (by norm_num) (by norm_num) (by norm_num) (by norm_num)

/-- Boolean test that `pat` occurs as a prefix of `l` (as character lists). -/
def listStartsWith (pat l : List Char) : Bool :=
  decide (pat = l.take pat.length)

/-- Boolean test that `pat` occurs as a contiguous substring of `l`. -/
def listHasSub (pat : List Char) : List Char → Bool
  | [] => pat.isEmpty
  | c :: rest => listStartsWith pat (c :: rest) || listHasSub pat rest

/-- Boolean test that `pat` occurs as a contiguous substring of `s`. -/
def strContainsSub (pat s : String) : Bool :=
  listHasSub pat.toList s.toList

/-- C8 counterexample: at a call with `crp = -2` (a logarithm domain error),
the estimator produces no numeric result, but the error it signals is
Python's fixed `"math domain error"` text — the displayed message does not
contain the invalid input's name `"crp"`, contradicting "carrying the invalid
input name". -/
theorem C8_counterexample_error_lacks_input_name :
    calculate_smart_risk 65 "Male" 140 5 1 false false 80 (-2) 0 = none ∧
      calculate_smart_risk_displayed (-2) =
        some "Error calculating risk: math domain error" ∧
      strContainsSub "crp" "Error calculating risk: math domain error" = false := by
  refine ⟨?_, ?_, by decide⟩
  · simp only [calculate_smart_risk]
    rw [if_pos (by norm_num : (-2 : ℝ) + 1 ≤ 0)]
  · simp only [calculate_smart_risk_displayed]
    rw [if_pos (by norm_num : (-2 : ℝ) + 1 ≤ 0)]

/-- C8 (amended): whenever `crp ≤ -1` (so `math.log(crp + 1)` is a logarithm
domain error), `calculate_smart_risk` signals an error — displaying Python's
generic "math domain error" message, which does not name the invalid input —
produces no numeric risk result, and the downstream treatment-effect steps of
the main logic do not execute. -/
theorem C8_log_domain_error_blocks_downstream
    (age : ℝ) (sex : String) (sbp total_chol hdl : ℝ) (smoker diabetes : Bool)
    (egfr crp vasc_count ldl : ℝ) (pre_statin discharge_statin : String)
    (discharge_add_ons : List String) (hcrp : crp ≤ -1) :
    calculate_smart_risk age sex sbp total_chol hdl smoker diabetes egfr crp
        vasc_count = none ∧
      calculate_smart_risk_displayed crp =
        some "Error calculating risk: math domain error" ∧
      main_final_risk age sex sbp total_chol hdl smoker diabetes egfr crp vasc_count
        ldl pre_statin discharge_statin discharge_add_ons = none := by
  have h0 : crp + 1 ≤ 0 := by linarith
  have h1 : calculate_smart_risk age sex sbp total_chol hdl smoker diabetes egfr crp
      vasc_count = none := by
    simp only [calculate_smart_risk]
    rw [if_pos h0]
  refine ⟨h1, ?_, ?_⟩
  · simp only [calculate_smart_risk_displayed]
    rw [if_pos h0]
  · simp only [main_final_risk, h1]

/-- C8 witness: a concrete run of the amended statement at `crp = -2`. -/
theorem C8_log_domain_error_witness :
    (-2 : ℝ) ≤ -1 ∧
      (calculate_smart_risk 65 "Male" 140 5 1 false false 80 (-2) 0 = none ∧
        calculate_smart_risk_displayed (-2) =
          some "Error calculating risk: math domain error" ∧
        main_final_risk 65 "Male" 140 5 1 false false 80 (-2) 0 3.5 "None"
          "Rosuvastatin 10 mg" [] = none) :=
  ⟨by norm_num,
    C8_log_domain_error_blocks_downstream 65 "Male" 140 5 1 false false 80 (-2) 0 3.5
      "None" "Rosuvastatin 10 mg" [] (by norm_num)⟩

/-- Helper: with the same (valid) crp on both sides, a larger linear
predictor gives a not-smaller returned baseline risk. -/
lemma smart_risk_getD_le_of_lp_le {age₁ age₂ : ℝ} {sex₁ sex₂ : String}
    {sbp₁ sbp₂ tc₁ tc₂ hdl₁ hdl₂ : ℝ} {sm₁ sm₂ db₁ db₂ : Bool}
    {eg₁ eg₂ crp vc₁ vc₂ : ℝ} (hcrp : -1 < crp)
    (hlp : smart_lp age₁ sex₁ sbp₁ tc₁ hdl₁ sm₁ db₁ eg₁ crp vc₁ ≤
      smart_lp age₂ sex₂ sbp₂ tc₂ hdl₂ sm₂ db₂ eg₂ crp vc₂) :
    (calculate_smart_risk age₁ sex₁ sbp₁ tc₁ hdl₁ sm₁ db₁ eg₁ crp vc₁).getD 0 ≤
      (calculate_smart_risk age₂ sex₂ sbp₂ tc₂ hdl₂ sm₂ db₂ eg₂ crp vc₂).getD 0 := by
  have hno : ¬ (crp + 1 ≤ 0) := not_le.mpr (by linarith)
  simp only [calculate_smart_risk, if_neg hno, Option.getD_some, smart_risk_value]
  exact smart_risk_core_mono hlp

/-- C6: with all other inputs held fixed (and a valid crp), the baseline risk
returned by `calculate_smart_risk` never decreases when age, SBP, total
cholesterol or the vascular disease count increases, or when the smoker or
diabetes flag switches from false to true; and it never increases when HDL
increases. -/
theorem C6_baseline_risk_monotone :
    (∀ (a₁ a₂ : ℝ) (sex : String) (sbp tc hdl : ℝ) (sm db : Bool) (eg crp vc : ℝ),
        -1 < crp → a₁ ≤ a₂ →
        (calculate_smart_risk a₁ sex sbp tc hdl sm db eg crp vc).getD 0 ≤
          (calculate_smart_risk a₂ sex sbp tc hdl sm db eg crp vc).getD 0) ∧
    (∀ (age : ℝ) (sex : String) (s₁ s₂ tc hdl : ℝ) (sm db : Bool) (eg crp vc : ℝ),
        -1 < crp → s₁ ≤ s₂ →
        (calculate_smart_risk age sex s₁ tc hdl sm db eg crp vc).getD 0 ≤
          (calculate_smart_risk age sex s₂ tc hdl sm db eg crp vc).getD 0) ∧
    (∀ (age : ℝ) (sex : String) (sbp t₁ t₂ hdl : ℝ) (sm db : Bool) (eg crp vc : ℝ),
        -1 < crp → t₁ ≤ t₂ →
        (calculate_smart_risk age sex sbp t₁ hdl sm db eg crp vc).getD 0 ≤
          (calculate_smart_risk age sex sbp t₂ hdl sm db eg crp vc).getD 0) ∧
    (∀ (age : ℝ) (sex : String) (sbp tc hdl : ℝ) (db : Bool) (eg crp vc : ℝ),
        -1 < crp →
        (calculate_smart_risk age sex sbp tc hdl false db eg crp vc).getD 0 ≤
          (calculate_smart_risk age sex sbp tc hdl true db eg crp vc).getD 0) ∧
    (∀ (age : ℝ) (sex : String) (sbp tc hdl : ℝ) (sm : Bool) (eg crp vc : ℝ),
        -1 < crp →
        (calculate_smart_risk age sex sbp tc hdl sm false eg crp vc).getD 0 ≤
          (calculate_smart_risk age sex sbp tc hdl sm true eg crp vc).getD 0) ∧
    (∀ (age : ℝ) (sex : String) (sbp tc hdl : ℝ) (sm db : Bool) (eg crp v₁ v₂ : ℝ),
        -1 < crp → v₁ ≤ v₂ →
        (calculate_smart_risk age sex sbp tc hdl sm db eg crp v₁).getD 0 ≤
          (calculate_smart_risk age sex sbp tc hdl sm db eg crp v₂).getD 0) ∧
    (∀ (age : ℝ) (sex : String) (sbp tc h₁ h₂ : ℝ) (sm db : Bool) (eg crp vc : ℝ),
        -1 < crp → h₁ ≤ h₂ →
        (calculate_smart_risk age sex sbp tc h₂ sm db eg crp vc).getD 0 ≤
          (calculate_smart_risk age sex sbp tc h₁ sm db eg crp vc).getD 0) := by
  refine ⟨?_, ?_, ?_, ?_, ?_, ?_, ?_⟩
  · intro a₁ a₂ sex sbp tc hdl sm db eg crp vc hcrp h
    exact smart_risk_getD_le_of_lp_le hcrp (by simp only [smart_lp]; linarith)
  · intro age sex s₁ s₂ tc hdl sm db eg crp vc hcrp h
    exact smart_risk_getD_le_of_lp_le hcrp (by simp only [smart_lp]; linarith)
  · intro age sex sbp t₁ t₂ hdl sm db eg crp vc hcrp h
    exact smart_risk_getD_le_of_lp_le hcrp (by simp only [smart_lp]; linarith)
  · intro age sex sbp tc hdl db eg crp vc hcrp
    exact smart_risk_getD_le_of_lp_le hcrp
      (by simp only [smart_lp]; norm_num)
  · intro age sex sbp tc hdl sm eg crp vc hcrp
    exact smart_risk_getD_le_of_lp_le hcrp
      (by simp only [smart_lp]; norm_num)
  · intro age sex sbp tc hdl sm db eg crp v₁ v₂ hcrp h
    exact smart_risk_getD_le_of_lp_le hcrp (by simp only [smart_lp]; linarith)
  · intro age sex sbp tc h₁ h₂ sm db eg crp vc hcrp h
    exact smart_risk_getD_le_of_lp_le hcrp (by simp only [smart_lp]; linarith)

/-- C6 witness: each of the seven monotonicity clauses exercised at a
concrete input. -/
theorem C6_baseline_risk_monotone_witness :
    ((calculate_smart_risk 60 "Male" 140 5 1 false false 80 2 0).getD 0 ≤
        (calculate_smart_risk 65 "Male" 140 5 1 false false 80 2 0).getD 0) ∧
      ((calculate_smart_risk 65 "Male" 130 5 1 false false 80 2 0).getD 0 ≤
        (calculate_smart_risk 65 "Male" 140 5 1 false false 80 2 0).getD 0) ∧
      ((calculate_smart_risk 65 "Male" 140 5 1 false false 80 2 0).getD 0 ≤
        (calculate_smart_risk 65 "Male" 140 6 1 false false 80 2 0).getD 0) ∧
      ((calculate_smart_risk 65 "Male" 140 5 1 false false 80 2 0).getD 0 ≤
        (calculate_smart_risk 65 "Male" 140 5 1 true false 80 2 0).getD 0) ∧
      ((calculate_smart_risk 65 "Male" 140 5 1 false false 80 2 0).getD 0 ≤
        (calculate_smart_risk 65 "Male" 140 5 1 false true 80 2 0).getD 0) ∧
      ((calculate_smart_risk 65 "Male" 140 5 1 false false 80 2 0).getD 0 ≤
        (calculate_smart_risk 65 "Male" 140 5 1 false false 80 2 2).getD 0) ∧
      ((calculate_smart_risk 65 "Male" 140 5 1.4 false false 80 2 0).getD 0 ≤
        (calculate_smart_risk 65 "Male" 140 5 1 false false 80 2 0).getD 0) :=
  ⟨C6_baseline_risk_monotone.1 60 65 "Male" 140 5 1 false false 80 2 0
      (by norm_num) (by norm_num),
    C6_baseline_risk_monotone.2.1 65 "Male" 130 140 5 1 false false 80 2 0
      (by norm_num) (by norm_num),
    C6_baseline_risk_monotone.2.2.1 65 "Male" 140 5 6 1 false false 80 2 0
      (by norm_num) (by norm_num),
    C6_baseline_risk_monotone.2.2.2.1 65 "Male" 140 5 1 false 80 2 0 (by norm_num),
    C6_baseline_risk_monotone.2.2.2.2.1 65 "Male" 140 5 1 false 80 2 0 (by norm_num),
    C6_baseline_risk_monotone.2.2.2.2.2.1 65 "Male" 140 5 1 false false 80 2 0 2
      (by norm_num) (by norm_num),
    C6_baseline_risk_monotone.2.2.2.2.2.2 65 "Male" 140 5 1 1.4 false false 80 2 0
      (by norm_num) (by norm_num)⟩
